import Mathlib

set_option maxHeartbeats 1000000

/-!
Shallow embedding of the consultant-chatbot orchestration core
(`src/mcpagent/database_agent.py` and `src/mcpagent/app.py`): the credential
precondition check, the specialty-classification step, the clarification
short-circuit, the database-query stage with its `try`/`except`/`finally`
resource handling, the `DatabaseAgent.cleanup` teardown, and the hosted async
wrapper `process_user_message_async`.

External effects — the language-model call and the MCP subprocess round trip —
are modelled as oracles: a classifier outcome function (from the prompt built
by the orchestrator) and a database-stage outcome saying where the round trip
succeeded, raised, or was cancelled.  The control flow, branch conditions,
status strings and message texts are transcribed from the source.  Python
string primitives (`str.strip`, `in`, `str.join`, truthiness) are given
executable models over `String.data` so that concrete runs evaluate inside
the logic.
-/

/-- Python `str.strip()`: drop whitespace from both ends. -/
def pyStrip (s : String) : String :=
  String.mk (((s.data.dropWhile Char.isWhitespace).reverse.dropWhile Char.isWhitespace).reverse)

/-- Python `c in s` for a single-character pattern. -/
def pyContainsChar (s : String) (c : Char) : Bool :=
  s.data.contains c

/-- Python falsiness of a string: `not s` is true exactly when `s` is empty. -/
def pyIsEmpty (s : String) : Bool :=
  s.data.isEmpty

/-- Whether `pat` occurs as a contiguous substring of `s`. -/
def containsSubstring (s pat : String) : Bool :=
  s.data.tails.any (fun t => pat.data.isPrefixOf t)

/-- Python `sep.join(l)`. -/
def py_join (sep : String) : List String → String
  | [] => ""
  | [v] => v
  | v :: rest => v ++ sep ++ py_join sep rest

/-- One history entry `{"user": ..., "assistant": ...}` as fed to
`process_chat_message`; the hosted caller passes only turns whose assistant
response is already present, so the assistant field is a plain string. -/
structure Turn where
  user : String
  assistant : String
deriving Repr, DecidableEq

/-- The dictionary `{"response": ..., "status": ...}` returned by the entry
points (the spec's QueryResult). -/
structure ChatResult where
  response : String
  status : String
deriving Repr, DecidableEq

/-- Outcome of one language-model call: returned content, or a raised
exception carrying a message. -/
inductive CallOutcome where
  | ok (text : String)
  | raise (msg : String)
deriving Repr, DecidableEq

/-- Where the database-query stage (the body of the `try` block at
`database_agent.py:209-227`) completes.  The stages in source order:
`stdio_client` spawn, `ClientSession` enter (the session open),
`session.initialize`, `create_database_agent`, `database_agent.arun`.
Cancellation (`asyncio.CancelledError`, e.g. from the caller's
`asyncio.wait_for` timeout) may strike before or after the session opens. -/
inductive DbStageOutcome where
  | spawnFail (msg : String)
  | openFail (msg : String)
  | initFail (msg : String)
  | agentCreateFail (msg : String)
  | queryFail (msg : String)
  | querySuccess (text : String)
  | cancelledBeforeOpen
  | cancelledAfterOpen
deriving Repr, DecidableEq

/-- Whether the `ClientSession` scope was entered before this outcome. -/
def DbStageOutcome.opensSession : DbStageOutcome → Bool
  | .spawnFail _ => false
  | .openFail _ => false
  | .cancelledBeforeOpen => false
  | _ => true

/-- Whether the outcome is an exception raised inside the `try` block
(cancellation is not an `Exception` in Python and is not included). -/
def DbStageOutcome.isError : DbStageOutcome → Bool
  | .spawnFail _ => true
  | .openFail _ => true
  | .initFail _ => true
  | .agentCreateFail _ => true
  | .queryFail _ => true
  | _ => false

/-- The message of the raised exception, for error outcomes. -/
def DbStageOutcome.errMsg : DbStageOutcome → String
  | .spawnFail m => m
  | .openFail m => m
  | .initFail m => m
  | .agentCreateFail m => m
  | .queryFail m => m
  | _ => ""

/-- How a Python coroutine invocation completes: a returned value, an
uncaught exception, or propagated cancellation (`CancelledError` is a
`BaseException`, so `except Exception` does not catch it, while `finally`
blocks still run). -/
inductive PyResult where
  | ret (r : ChatResult)
  | exn (msg : String)
  | cancelled
deriving Repr, DecidableEq

/-- Observable side effects of one invocation: classifier model calls,
subprocess spawn attempts, session-scope entries and exits, and
`DatabaseAgent.cleanup` invocations. -/
structure Effects where
  classifierCalls : Nat
  spawnCalls : Nat
  sessionOpens : Nat
  sessionCloses : Nat
  cleanupCalls : Nat
deriving Repr, DecidableEq

/-- Effects with no classifier call, no spawn, no session and no cleanup. -/
def noEffects : Effects :=
  ⟨0, 0, 0, 0, 0⟩

/-- Effects after the classifier was called once and nothing else happened. -/
def classifierOnlyEffects : Effects :=
  ⟨1, 0, 0, 0, 0⟩

/-- Effects of an invocation that entered the database stage: one classifier
call, one spawn attempt, the session scope (when entered) exited exactly once
by the scoped `async with`, and `cleanup` run once by `finally`. -/
def dbEffects (db : DbStageOutcome) : Effects :=
  ⟨1, 1, if db.opensSession then 1 else 0, if db.opensSession then 1 else 0, 1⟩

/-- Python truthiness of an `os.getenv` result: `None` and `""` are falsy. -/
def envTruthy : Option String → Bool
  | none => false
  | some s => !pyIsEmpty s

/-- `required_variables` at `database_agent.py:161`. -/
def required_variables : List String :=
  ["DB_HOST", "DB_USER", "DB_PASSWORD", "DB_NAME"]

/-- `missing_variables` at `database_agent.py:162`: the required variables
whose environment value is falsy. -/
def missing_variables (env : String → Option String) : List String :=
  required_variables.filter (fun v => !envTruthy (env v))

/-- The error response for missing credentials (`database_agent.py:164`). -/
def missing_vars_message (vars : List String) : String :=
  "Error: Missing environment variables: " ++ py_join ", " vars

/-- `history_prompt` at `database_agent.py:171`. -/
def history_prompt (history : List Turn) : String :=
  py_join "\n"
    (history.map (fun msg => "User: " ++ msg.user ++ "\nAssistant: " ++ msg.assistant))

/-- The classifier prompt built at `database_agent.py:172-179`. -/
def symptom_prompt (userMessage : String) (history : List Turn) : String :=
  "\n    Conversation history:\n    " ++ history_prompt history ++
    "\n\n    Current message: \"" ++ userMessage ++
    "\"\n\n    Analyze the symptoms and return a comma-separated list of specialties or a question if clarification is needed.\n    "

/-- The default fallback clarification text at `database_agent.py:186`. -/
def fallback_question : String :=
  "Could you describe your symptoms?"

/-- The completion of the `try`/`except`/`finally` block at
`database_agent.py:209-234`: a successful query returns the trimmed model
text with status success (unconditionally — line 227 has no clarification
check); any `Exception` raised inside the block is caught at line 229 and
turned into the fetch-error result; cancellation propagates (the `finally`
still runs, counted in `dbEffects`). -/
def db_stage_result (db : DbStageOutcome) : PyResult :=
  match db with
  | .querySuccess t => PyResult.ret ⟨pyStrip t, "success"⟩
  | .cancelledBeforeOpen => PyResult.cancelled
  | .cancelledAfterOpen => PyResult.cancelled
  | e => PyResult.ret ⟨"Error: Unable to fetch consultants: " ++ e.errMsg, "error"⟩

/-- `process_chat_message` (`database_agent.py:154-234`), with the model call
and the database round trip supplied as oracles.  Returns the Python-level
completion, the observable effects, and the conversation history as it stands
after the call.  The classifier call at line 181 is not wrapped in any
`try`, so a raise there propagates out as `PyResult.exn`. -/
def process_chat_message (userMessage : String) (history : List Turn)
    (env : String → Option String) (classify : String → CallOutcome)
    (db : DbStageOutcome) : PyResult × Effects × List Turn :=
  if !(missing_variables env).isEmpty then
    (PyResult.ret ⟨missing_vars_message (missing_variables env), "error"⟩,
      noEffects, history)
  else
    match classify (symptom_prompt userMessage history) with
    | CallOutcome.raise m => (PyResult.exn m, classifierOnlyEffects, history)
    | CallOutcome.ok content =>
      if pyIsEmpty (pyStrip content) || pyContainsChar (pyStrip content) '?' then
        (PyResult.ret
          ⟨if pyIsEmpty (pyStrip content) then fallback_question else pyStrip content,
            "clarification"⟩,
          classifierOnlyEffects, history)
      else
        (db_stage_result db, dbEffects db, history)

/-- `process_user_message_async` (`app.py:168-188`): the empty-message guard,
then the orchestrator under `asyncio.wait_for`; cancellation surfaces as the
timeout error result, and any other exception as the generic error result. -/
def process_user_message_async (userMessage : String) (history : List Turn)
    (env : String → Option String) (classify : String → CallOutcome)
    (db : DbStageOutcome) : ChatResult × Effects × List Turn :=
  if pyIsEmpty (pyStrip userMessage) then
    (⟨"Please enter a valid message.", "error"⟩, noEffects, history)
  else
    match process_chat_message userMessage history env classify db with
    | (PyResult.ret r, eff, h) => (r, eff, h)
    | (PyResult.cancelled, eff, h) =>
        (⟨"Error: Database query timed out after 30 seconds. Please check if the database server is running.",
          "error"⟩, eff, h)
    | (PyResult.exn m, eff, h) =>
        (⟨"Error processing message: " ++ m ++
            "\nPlease check if 'uvx mcp-sql-server' is accessible and the database is running.",
          "error"⟩, eff, h)

/-- The `self.session` object seen by `DatabaseAgent.cleanup`: whether it has
a `close` attribute and whether calling `close` raises. -/
structure SessionObj where
  hasClose : Bool
  closeFails : Bool
deriving Repr, DecidableEq

/-- `session.close()` as an `Except`: raises when the session is faulty. -/
def SessionObj.close (s : SessionObj) : Except String Unit :=
  if s.closeFails then Except.error "close failed" else Except.ok ()

/-- The body of the `try` in `DatabaseAgent.cleanup`
(`database_agent.py:98-101`): close the session if present and closable; the
value counts the `close` calls made. -/
def cleanup_body (session : Option SessionObj) : Except String Nat :=
  match session with
  | none => Except.ok 0
  | some s =>
    if s.hasClose then
      match s.close with
      | Except.ok _ => Except.ok 1
      | Except.error e => Except.error e
    else Except.ok 0

/-- Completion of `DatabaseAgent.cleanup`: either it finished (having made
some number of `close` calls, possibly logging a warning), or it raised. -/
inductive CleanupOutcome where
  | completed (closeCalls : Nat) (warned : Option String)
  | raised (msg : String)
deriving Repr, DecidableEq

/-- `DatabaseAgent.cleanup` (`database_agent.py:96-103`): the try body with
`except Exception` turning any raise (possible only at the `close` call)
into a logged warning. -/
def cleanup (session : Option SessionObj) : CleanupOutcome :=
  match cleanup_body session with
  | Except.ok n => CleanupOutcome.completed n none
  | Except.error e => CleanupOutcome.completed 1 (some ("Cleanup warning: " ++ e))

/-- Membership in a joined list decomposes the joined string's characters. -/
theorem py_join_mem_decomp (sep : String) (v : String) :
    ∀ l : List String, v ∈ l →
      ∃ pre post, (py_join sep l).data = pre ++ v.data ++ post := by
  intro l
  induction l with
  | nil => intro h; cases h
  | cons a rest ih =>
    intro hmem
    cases rest with
    | nil =>
      rcases List.mem_singleton.mp hmem with rfl
      exact ⟨[], [], by simp [py_join]⟩
    | cons b rest2 =>
      rcases List.mem_cons.mp hmem with rfl | hmem2
      · refine ⟨[], sep.data ++ (py_join sep (b :: rest2)).data, ?_⟩
        simp [py_join, String.data_append, List.append_assoc]
      · rcases ih hmem2 with ⟨pre, post, hpre⟩
        refine ⟨a.data ++ sep.data ++ pre, post, ?_⟩
        simp [py_join, String.data_append, hpre, List.append_assoc]

/-- A string whose characters contain the pattern's characters contiguously
passes the substring check. -/
theorem containsSubstring_of_decomp (s pat : String)
    (h : ∃ pre post, s.data = pre ++ pat.data ++ post) :
    containsSubstring s pat = true := by
  rcases h with ⟨pre, post, hdecomp⟩
  unfold containsSubstring
  rw [List.any_eq_true]
  refine ⟨pat.data ++ post, ?_, ?_⟩
  · rw [List.mem_tails, hdecomp]
    exact ⟨pre, by rw [List.append_assoc]⟩
  · exact List.isPrefixOf_iff_prefix.mpr (List.prefix_append _ _)

/-- Reaching the database stage: with credentials present and a successful,
non-clarifying classification, the invocation's outcome is the database
stage's outcome paired with the database-stage effects. -/
theorem process_chat_message_reaches_db
    (userMessage : String) (history : List Turn)
    (env : String → Option String) (classify : String → CallOutcome)
    (db : DbStageOutcome) (c : String)
    (hmiss : missing_variables env = [])
    (hc : classify (symptom_prompt userMessage history) = CallOutcome.ok c)
    (hne : pyIsEmpty (pyStrip c) = false)
    (hq : pyContainsChar (pyStrip c) '?' = false) :
    process_chat_message userMessage history env classify db =
      (db_stage_result db, dbEffects db, history) := by
  unfold process_chat_message
  rw [hmiss, hc]
  simp [hne, hq]

/-- Claim C1: whenever specialty classification succeeds (non-empty trimmed
classifier text without a question mark) and credentials are present,
`DatabaseAgent.cleanup` runs exactly once and the session scope is exited as
many times as it was entered — in particular exactly once whenever the
session actually opened — on every exit path: normal return, an exception
during the query round trip, and cancellation. -/
theorem process_chat_message_session_teardown_once
    (userMessage : String) (history : List Turn)
    (env : String → Option String) (classify : String → CallOutcome)
    (db : DbStageOutcome) (c : String)
    (hmiss : missing_variables env = [])
    (hc : classify (symptom_prompt userMessage history) = CallOutcome.ok c)
    (hne : pyIsEmpty (pyStrip c) = false)
    (hq : pyContainsChar (pyStrip c) '?' = false) :
    (process_chat_message userMessage history env classify db).2.1.cleanupCalls = 1 ∧
    (process_chat_message userMessage history env classify db).2.1.sessionCloses =
      (process_chat_message userMessage history env classify db).2.1.sessionOpens ∧
    (db.opensSession = true →
      (process_chat_message userMessage history env classify db).2.1.sessionCloses = 1) := by
  rw [process_chat_message_reaches_db userMessage history env classify db c hmiss hc hne hq]
  refine ⟨rfl, rfl, ?_⟩
  intro hopen
  simp [dbEffects, hopen]

/-- Witness for C1 at a concrete invocation that reaches the database stage
and returns normally. -/
theorem process_chat_message_session_teardown_once_witness :
    (process_chat_message "I have chest pain" [] (fun _ => some "x")
        (fun _ => CallOutcome.ok "Cardiology, Cardiologist")
        (DbStageOutcome.querySuccess "Found consultants: [A - Cardiology]")).2.1.cleanupCalls = 1 ∧
    (process_chat_message "I have chest pain" [] (fun _ => some "x")
        (fun _ => CallOutcome.ok "Cardiology, Cardiologist")
        (DbStageOutcome.querySuccess "Found consultants: [A - Cardiology]")).2.1.sessionCloses =
      (process_chat_message "I have chest pain" [] (fun _ => some "x")
          (fun _ => CallOutcome.ok "Cardiology, Cardiologist")
          (DbStageOutcome.querySuccess "Found consultants: [A - Cardiology]")).2.1.sessionOpens ∧
    ((DbStageOutcome.querySuccess "Found consultants: [A - Cardiology]").opensSession = true →
      (process_chat_message "I have chest pain" [] (fun _ => some "x")
          (fun _ => CallOutcome.ok "Cardiology, Cardiologist")
          (DbStageOutcome.querySuccess "Found consultants: [A - Cardiology]")).2.1.sessionCloses = 1) :=
  process_chat_message_session_teardown_once "I have chest pain" [] (fun _ => some "x")
    (fun _ => CallOutcome.ok "Cardiology, Cardiologist")
    (DbStageOutcome.querySuccess "Found consultants: [A - Cardiology]")
    "Cardiology, Cardiologist" (by decide) rfl (by decide) (by decide)

/-- Claim C2: when a required DB credential variable is absent from the
environment, `process_chat_message` returns a status-error result whose text
is the missing-variables message (which names every missing variable, the
absent one included, as a substring), with no classifier call and no
subprocess spawn. -/
theorem process_chat_message_missing_credentials
    (userMessage : String) (history : List Turn)
    (env : String → Option String) (classify : String → CallOutcome)
    (db : DbStageOutcome) (v : String)
    (hv : v ∈ required_variables) (habs : env v = none) :
    v ∈ missing_variables env ∧
    containsSubstring (missing_vars_message (missing_variables env)) v = true ∧
    process_chat_message userMessage history env classify db =
      (PyResult.ret ⟨missing_vars_message (missing_variables env), "error"⟩,
        noEffects, history) := by
  have hmem : v ∈ missing_variables env := by
    unfold missing_variables
    exact List.mem_filter.mpr ⟨hv, by simp [envTruthy, habs]⟩
  have hnames : containsSubstring (missing_vars_message (missing_variables env)) v = true := by
    apply containsSubstring_of_decomp
    rcases py_join_mem_decomp ", " v (missing_variables env) hmem with ⟨pre, post, hdecomp⟩
    exact ⟨("Error: Missing environment variables: ").data ++ pre, post, by
      simp [missing_vars_message, String.data_append, hdecomp, List.append_assoc]⟩
  refine ⟨hmem, hnames, ?_⟩
  have hne : (missing_variables env).isEmpty = false := by
    cases h : missing_variables env with
    | nil => rw [h] at hmem; cases hmem
    | cons a l => rfl
  unfold process_chat_message
  rw [hne]
  rfl

/-- Witness for C2 with every credential variable unset. -/
theorem process_chat_message_missing_credentials_witness :
    "DB_HOST" ∈ missing_variables (fun _ => none) ∧
    containsSubstring (missing_vars_message (missing_variables (fun _ => none))) "DB_HOST" = true ∧
    process_chat_message "hello" [] (fun _ => none)
        (fun _ => CallOutcome.ok "Cardiology") DbStageOutcome.cancelledBeforeOpen =
      (PyResult.ret ⟨missing_vars_message (missing_variables (fun _ => none)), "error"⟩,
        noEffects, []) :=
  process_chat_message_missing_credentials "hello" [] (fun _ => none)
    (fun _ => CallOutcome.ok "Cardiology") DbStageOutcome.cancelledBeforeOpen
    "DB_HOST" (by decide) rfl

/-- Claim C3: classifier output that is empty after trimming or that contains
a question mark yields a clarification result — the trimmed text itself, or
the fallback question when empty — with no spawn and no session. -/
theorem process_chat_message_clarification
    (userMessage : String) (history : List Turn)
    (env : String → Option String) (classify : String → CallOutcome)
    (db : DbStageOutcome) (c : String)
    (hmiss : missing_variables env = [])
    (hc : classify (symptom_prompt userMessage history) = CallOutcome.ok c)
    (hclar : pyIsEmpty (pyStrip c) = true ∨ pyContainsChar (pyStrip c) '?' = true) :
    process_chat_message userMessage history env classify db =
      (PyResult.ret
        ⟨if pyIsEmpty (pyStrip c) then fallback_question else pyStrip c, "clarification"⟩,
        classifierOnlyEffects, history) := by
  unfold process_chat_message
  rw [hmiss, hc]
  rcases hclar with h | h <;> simp [h]

/-- Witness for C3: a concrete question-shaped classifier output. -/
theorem process_chat_message_clarification_witness :
    process_chat_message "I feel bad" [] (fun _ => some "x")
        (fun _ => CallOutcome.ok "Could you describe the pain?")
        DbStageOutcome.cancelledBeforeOpen =
      (PyResult.ret
        ⟨if pyIsEmpty (pyStrip "Could you describe the pain?") then fallback_question
          else pyStrip "Could you describe the pain?", "clarification"⟩,
        classifierOnlyEffects, []) :=
  process_chat_message_clarification "I feel bad" [] (fun _ => some "x")
    (fun _ => CallOutcome.ok "Could you describe the pain?")
    DbStageOutcome.cancelledBeforeOpen "Could you describe the pain?"
    (by decide) rfl (Or.inr (by decide))

/-- Claim C4: any exception raised inside the database round trip — spawn,
session open, handshake, agent creation, or the query run — is caught and
converted to a status-error diagnostic result, cleanup still runs once, and
the hosted wrapper returns a status-error result rather than a fault. -/
theorem process_chat_message_db_error_caught
    (userMessage : String) (history : List Turn)
    (env : String → Option String) (classify : String → CallOutcome)
    (db : DbStageOutcome) (c : String)
    (hmiss : missing_variables env = [])
    (hc : classify (symptom_prompt userMessage history) = CallOutcome.ok c)
    (hne : pyIsEmpty (pyStrip c) = false)
    (hq : pyContainsChar (pyStrip c) '?' = false)
    (herr : db.isError = true) :
    process_chat_message userMessage history env classify db =
      (PyResult.ret ⟨"Error: Unable to fetch consultants: " ++ db.errMsg, "error"⟩,
        dbEffects db, history) ∧
    (dbEffects db).cleanupCalls = 1 ∧
    (process_user_message_async userMessage history env classify db).1.status = "error" := by
  have hmain : process_chat_message userMessage history env classify db =
      (PyResult.ret ⟨"Error: Unable to fetch consultants: " ++ db.errMsg, "error"⟩,
        dbEffects db, history) := by
    rw [process_chat_message_reaches_db userMessage history env classify db c hmiss hc hne hq]
    cases db <;> first
      | rfl
      | exact absurd herr (by simp [DbStageOutcome.isError])
  refine ⟨hmain, rfl, ?_⟩
  unfold process_user_message_async
  rw [hmain]
  by_cases hmsg : pyIsEmpty (pyStrip userMessage) <;> simp [hmsg]

/-- Witness for C4: a concrete query-stage failure. -/
theorem process_chat_message_db_error_caught_witness :
    process_chat_message "I have chest pain" [] (fun _ => some "x")
        (fun _ => CallOutcome.ok "Cardiology")
        (DbStageOutcome.queryFail "boom") =
      (PyResult.ret
        ⟨"Error: Unable to fetch consultants: " ++ (DbStageOutcome.queryFail "boom").errMsg,
          "error"⟩,
        dbEffects (DbStageOutcome.queryFail "boom"), []) ∧
    (dbEffects (DbStageOutcome.queryFail "boom")).cleanupCalls = 1 ∧
    (process_user_message_async "I have chest pain" [] (fun _ => some "x")
        (fun _ => CallOutcome.ok "Cardiology")
        (DbStageOutcome.queryFail "boom")).1.status = "error" :=
  process_chat_message_db_error_caught "I have chest pain" [] (fun _ => some "x")
    (fun _ => CallOutcome.ok "Cardiology") (DbStageOutcome.queryFail "boom")
    "Cardiology" (by decide) rfl (by decide) (by decide) (by decide)

/-- Claim C5 counterexample: with credentials present, a failing classifier
call propagates out of `process_chat_message` as a raised exception — it is
not converted into a status-error result inside that function. -/
theorem classifier_failure_escapes_orchestrator :
    (process_chat_message "I have chest pain" [] (fun _ => some "x")
        (fun _ => CallOutcome.raise "model call failed")
        DbStageOutcome.cancelledBeforeOpen).1 =
      PyResult.exn "model call failed" := by
  decide

/-- Claim C5 (amended): a classifier failure escapes `process_chat_message`
as a raised exception, and the hosted wrapper `process_user_message_async`
catches it and converts it into a status-error result carrying a diagnostic,
so no unhandled fault reaches the hosting UI. -/
theorem classifier_failure_caught_by_wrapper
    (userMessage : String) (history : List Turn)
    (env : String → Option String) (db : DbStageOutcome) (m : String)
    (hmiss : missing_variables env = [])
    (hne : pyIsEmpty (pyStrip userMessage) = false) :
    (process_chat_message userMessage history env (fun _ => CallOutcome.raise m) db).1 =
      PyResult.exn m ∧
    process_user_message_async userMessage history env (fun _ => CallOutcome.raise m) db =
      (⟨"Error processing message: " ++ m ++
          "\nPlease check if 'uvx mcp-sql-server' is accessible and the database is running.",
        "error"⟩, classifierOnlyEffects, history) := by
  have hmain : process_chat_message userMessage history env (fun _ => CallOutcome.raise m) db =
      (PyResult.exn m, classifierOnlyEffects, history) := by
    unfold process_chat_message
    rw [hmiss]
    rfl
  refine ⟨by rw [hmain], ?_⟩
  unfold process_user_message_async
  simp [hmain, hne]

/-- Witness for the amended C5 at a concrete failing classifier. -/
theorem classifier_failure_caught_by_wrapper_witness :
    (process_chat_message "hello" [] (fun _ => some "x")
        (fun _ => CallOutcome.raise "model down") DbStageOutcome.cancelledBeforeOpen).1 =
      PyResult.exn "model down" ∧
    process_user_message_async "hello" [] (fun _ => some "x")
        (fun _ => CallOutcome.raise "model down") DbStageOutcome.cancelledBeforeOpen =
      (⟨"Error processing message: " ++ "model down" ++
          "\nPlease check if 'uvx mcp-sql-server' is accessible and the database is running.",
        "error"⟩, classifierOnlyEffects, []) :=
  classifier_failure_caught_by_wrapper "hello" [] (fun _ => some "x")
    DbStageOutcome.cancelledBeforeOpen "model down" (by decide) (by decide)

/-- Claim C6 counterexample: a successful round trip whose final text is a
question with no consultant listing is still returned with status success,
not clarification. -/
theorem query_success_status_ignores_question :
    (process_chat_message "I feel unwell" [] (fun _ => some "x")
        (fun _ => CallOutcome.ok "Cardiology")
        (DbStageOutcome.querySuccess "Please specify symptoms or specialties to search for?")).1 =
      PyResult.ret ⟨"Please specify symptoms or specialties to search for?", "success"⟩ ∧
    pyContainsChar "Please specify symptoms or specialties to search for?" '?' = true ∧
    containsSubstring "Please specify symptoms or specialties to search for?"
      "Found consultants" = false := by
  refine ⟨by decide, by decide, by decide⟩

/-- Claim C6 (amended): when the query agent's round trip completes without
error, the result is the trimmed final model text with status success,
unconditionally — no clarification-pattern check is applied to that text. -/
theorem process_chat_message_query_success
    (userMessage : String) (history : List Turn)
    (env : String → Option String) (classify : String → CallOutcome)
    (t : String) (c : String)
    (hmiss : missing_variables env = [])
    (hc : classify (symptom_prompt userMessage history) = CallOutcome.ok c)
    (hne : pyIsEmpty (pyStrip c) = false)
    (hq : pyContainsChar (pyStrip c) '?' = false) :
    process_chat_message userMessage history env classify (DbStageOutcome.querySuccess t) =
      (PyResult.ret ⟨pyStrip t, "success"⟩,
        dbEffects (DbStageOutcome.querySuccess t), history) := by
  rw [process_chat_message_reaches_db userMessage history env classify
    (DbStageOutcome.querySuccess t) c hmiss hc hne hq]
  rfl

/-- Witness for the amended C6 with a question-shaped final text. -/
theorem process_chat_message_query_success_witness :
    process_chat_message "I feel unwell" [] (fun _ => some "x")
        (fun _ => CallOutcome.ok "Cardiology")
        (DbStageOutcome.querySuccess "Anything else?") =
      (PyResult.ret ⟨pyStrip "Anything else?", "success"⟩,
        dbEffects (DbStageOutcome.querySuccess "Anything else?"), []) :=
  process_chat_message_query_success "I feel unwell" [] (fun _ => some "x")
    (fun _ => CallOutcome.ok "Cardiology") "Anything else?" "Cardiology"
    (by decide) rfl (by decide) (by decide)

/-- Claim C7: every result actually returned carries a status among success,
clarification and error — for `process_chat_message` on every return path,
and for `process_user_message_async` unconditionally. -/
theorem result_status_well_formed
    (userMessage : String) (history : List Turn)
    (env : String → Option String) (classify : String → CallOutcome)
    (db : DbStageOutcome) :
    (∀ r eff hist,
      process_chat_message userMessage history env classify db = (PyResult.ret r, eff, hist) →
      r.status = "success" ∨ r.status = "clarification" ∨ r.status = "error") ∧
    ((process_user_message_async userMessage history env classify db).1.status = "success" ∨
      (process_user_message_async userMessage history env classify db).1.status = "clarification" ∨
      (process_user_message_async userMessage history env classify db).1.status = "error") := by
  have hp : ∀ r eff hist,
      process_chat_message userMessage history env classify db = (PyResult.ret r, eff, hist) →
      r.status = "success" ∨ r.status = "clarification" ∨ r.status = "error" := by
    intro r eff hist hEq
    unfold process_chat_message at hEq
    split at hEq
    · simp only [Prod.mk.injEq, PyResult.ret.injEq] at hEq
      rw [← hEq.1]
      right; right; rfl
    · split at hEq
      · exact absurd hEq (by simp)
      · split at hEq
        · simp only [Prod.mk.injEq, PyResult.ret.injEq] at hEq
          rw [← hEq.1]
          right; left; rfl
        · cases db <;>
            simp only [db_stage_result, Prod.mk.injEq, PyResult.ret.injEq] at hEq <;>
            first
              | (rw [← hEq.1]; right; right; rfl)
              | (rw [← hEq.1]; left; rfl)
              | exact absurd hEq.1 (by simp)
  refine ⟨hp, ?_⟩
  unfold process_user_message_async
  split
  · right; right; rfl
  · rcases hout : process_chat_message userMessage history env classify db with ⟨pr, eff2, hist2⟩
    cases pr with
    | ret r => simpa using hp r eff2 hist2 hout
    | exn m => right; right; rfl
    | cancelled => right; right; rfl

/-- Witness for C7 at a concrete successful invocation. -/
theorem result_status_well_formed_witness :
    (process_user_message_async "hi" [] (fun _ => some "x")
        (fun _ => CallOutcome.ok "Cardiology")
        (DbStageOutcome.querySuccess "Found consultants: [A - Cardiology]")).1.status = "success" ∨
    (process_user_message_async "hi" [] (fun _ => some "x")
        (fun _ => CallOutcome.ok "Cardiology")
        (DbStageOutcome.querySuccess "Found consultants: [A - Cardiology]")).1.status = "clarification" ∨
    (process_user_message_async "hi" [] (fun _ => some "x")
        (fun _ => CallOutcome.ok "Cardiology")
        (DbStageOutcome.querySuccess "Found consultants: [A - Cardiology]")).1.status = "error" :=
  (result_status_well_formed "hi" [] (fun _ => some "x")
    (fun _ => CallOutcome.ok "Cardiology")
    (DbStageOutcome.querySuccess "Found consultants: [A - Cardiology]")).2

/-- Claim C8: a message that is empty after stripping short-circuits in the
hosted wrapper with the fixed invalid-message error result, before any
classification and before any spawn. -/
theorem empty_message_short_circuits
    (userMessage : String) (env : String → Option String)
    (classify : String → CallOutcome) (db : DbStageOutcome)
    (hempty : pyIsEmpty (pyStrip userMessage) = true) :
    process_user_message_async userMessage [] env classify db =
      (⟨"Please enter a valid message.", "error"⟩, noEffects, []) := by
  unfold process_user_message_async
  simp [hempty]

/-- Witness for C8 with a whitespace-only message. -/
theorem empty_message_short_circuits_witness :
    process_user_message_async "   " [] (fun _ => some "x")
        (fun _ => CallOutcome.ok "Cardiology") DbStageOutcome.cancelledBeforeOpen =
      (⟨"Please enter a valid message.", "error"⟩, noEffects, []) :=
  empty_message_short_circuits "   " (fun _ => some "x")
    (fun _ => CallOutcome.ok "Cardiology") DbStageOutcome.cancelledBeforeOpen (by decide)

/-- Claim C9: `DatabaseAgent.cleanup` never raises — with no session, with a
healthy session, and with a session whose close itself fails, it completes;
a failing close is only logged as a warning. -/
theorem cleanup_never_raises :
    (∀ s : Option SessionObj, ∃ n w, cleanup s = CleanupOutcome.completed n w) ∧
    cleanup (some ⟨true, true⟩) =
      CleanupOutcome.completed 1 (some "Cleanup warning: close failed") ∧
    cleanup none = CleanupOutcome.completed 0 none := by
  refine ⟨?_, by decide, by decide⟩
  intro s
  rcases s with _ | ⟨hc, cf⟩
  · exact ⟨0, none, rfl⟩
  · cases hc <;> cases cf <;> exact ⟨_, _, rfl⟩

/-- Claim C10: the conversation history passes through both entry points
unchanged on every return path. -/
theorem conversation_history_unchanged
    (userMessage : String) (history : List Turn)
    (env : String → Option String) (classify : String → CallOutcome)
    (db : DbStageOutcome) :
    (process_chat_message userMessage history env classify db).2.2 = history ∧
    (process_user_message_async userMessage history env classify db).2.2 = history := by
  have hp : (process_chat_message userMessage history env classify db).2.2 = history := by
    unfold process_chat_message
    split
    · rfl
    · split
      · rfl
      · split
        · rfl
        · rfl
  refine ⟨hp, ?_⟩
  unfold process_user_message_async
  split
  · rfl
  · rcases hout : process_chat_message userMessage history env classify db with ⟨pr, eff2, hist2⟩
    rw [hout] at hp
    cases pr <;> simpa using hp
